import Mathlib

/-!
Verification of the core behavior of the spritegen repository.

The React frontend under src is embedded directly (prompt construction in
services/api.ts, the MCP tool table in components/MCPInterface.tsx, the
training-data ingestion gate in components/TrainingDataUpload.tsx, the
gallery rating update in App.tsx).  The Flask backend that implements the
tag-matching prompt-enhancement engine and the /mcp/execute dispatcher is
not part of the sources; those components are modelled from the design
document and are marked as such in their doc comments.
-/

namespace SpriteGen

/-! ## Frontend data model (src/types/sprite.ts) -/

/-- Embeds the Sprite record of src/src/types/sprite.ts: `rating` is a number
(0 = unrated), `feedback` and `updatedAt` are optional fields. -/
structure Sprite where
  id : String
  character : String
  pose : String
  style : String
  imageBase64 : String
  rating : Nat
  feedback : Option String
  createdAt : String
  updatedAt : Option String
deriving DecidableEq

/-- Embeds GenerateRequest of src/src/types/sprite.ts: all three fields are
strings; the builders in api.ts treat the empty string as absent. -/
structure GenerateRequest where
  character : String
  pose : String
  style : String
deriving DecidableEq

/-! ## Prompt built by generateSprite (src/services/api.ts, lines 35-48) -/

/-- Embeds the template-literal prompt of `generateSprite` in
src/src/services/api.ts line 36: the pose clause and the style clause are
appended only when the corresponding field is truthy (non-empty). -/
def generateSpritePrompt (r : GenerateRequest) : String :=
  "Generate a sprite of " ++ r.character ++
    (if r.pose ≠ "" then " in " ++ r.pose ++ " pose" else "") ++
    (if r.style ≠ "" then " with " ++ r.style ++ " style" else "") ++
    ". High quality, detailed sprite art, game character design."

/-- The base-prompt template as the design document words it
("a sprite of {character}[, in {pose} pose][, {style} style]"), stated over
the frontend request type so it can be compared with `generateSpritePrompt`. -/
def claimedBasePrompt (r : GenerateRequest) : String :=
  "a sprite of " ++ r.character ++
    (if r.pose ≠ "" then ", in " ++ r.pose ++ " pose" else "") ++
    (if r.style ≠ "" then ", " ++ r.style ++ " style" else "")

/-- The fixed suffix that `generateSprite` always appends to its prompt. -/
def qualitySuffix : String :=
  ". High quality, detailed sprite art, game character design."

/-! ## fetchWithErrorHandling (src/services/api.ts, lines 8-33) -/

/-- Embeds the data the code reads off a resolved fetch response: `ok`,
`status`, and the value of `errorData.error` after
`response.json().catch(...)` with its fallback object carrying the text Unknown error
(`none` means the body parsed but carried no error field). -/
structure FetchResponse where
  ok : Bool
  status : Nat
  errorField : Option String
deriving DecidableEq

/-- Outcome of the single `await fetch(...)` call: either the promise
resolves with a response, or it rejects with a JS error carrying a name and
a message (`AbortSignal.timeout` rejects with name "TimeoutError"). -/
inductive FetchOutcome where
  | resolved (r : FetchResponse)
  | rejected (errName : String) (errMsg : String)
deriving DecidableEq

/-- The message thrown by the catch block for AbortError / TimeoutError. -/
def timeoutMessage : String :=
  "Request timed out. Please check if the backend server is running."

/-- The message thrown by the catch block for network failures. -/
def connectMessage : String :=
  "Cannot connect to backend server. Please ensure the backend is running on http://localhost:5000"

/-- JS `String.prototype.includes` for a non-empty needle, via splitOn:
the needle occurs in `s` iff splitting on it yields more than one piece. -/
def includesSub (s sub : String) : Bool :=
  (s.splitOn sub).length > 1

/-- Embeds the catch block of `fetchWithErrorHandling` (api.ts lines 22-31):
abort/timeout errors become `timeoutMessage`, messages mentioning a fetch
failure become `connectMessage`, anything else is rethrown unchanged. -/
def translateError (errName errMsg : String) : String :=
  if errName = "AbortError" ∨ errName = "TimeoutError" then timeoutMessage
  else if includesSub errMsg "Failed to fetch" ∨ includesSub errMsg "NetworkError" then
    connectMessage
  else errMsg

/-- Embeds `errorData.error || \x7bHTTP error! status: ...\x7d` (api.ts line 18):
a falsy (absent or empty) error field falls back to the HTTP status text. -/
def httpErrorMessage (r : FetchResponse) : String :=
  match r.errorField with
  | some e => if e = "" then "HTTP error! status: " ++ toString r.status else e
  | none => "HTTP error! status: " ++ toString r.status

/-- Embeds `fetchWithErrorHandling` (api.ts lines 8-33) as a function of the
fetch outcome: a non-ok response throws the parsed error message (which then
passes through the same catch block, as an Error named "Error"), a rejected
promise is translated by the catch block, and an ok response is returned. -/
def fetchWithErrorHandling (outcome : FetchOutcome) : Except String FetchResponse :=
  match outcome with
  | .resolved r =>
      if r.ok then .ok r
      else .error (translateError "Error" (httpErrorMessage r))
  | .rejected errName errMsg => .error (translateError errName errMsg)

/-- The same call together with the list of HTTP requests it issues: the body
of `fetchWithErrorHandling` contains exactly one `fetch(url, ...)` call and
no loop or retry, so a single invocation issues the one request `url`. -/
def fetchWithErrorHandlingRun (url : String) (outcome : FetchOutcome) :
    Except String FetchResponse × List String :=
  (fetchWithErrorHandling outcome, [url])

/-! ## Training-data ingestion (src/components/TrainingDataUpload.tsx) -/

/-- Embeds the component state read by `handleSubmit`: `selectedImage` is the
base64 payload or null, the rest is `formData`. -/
structure TrainingFormState where
  selectedImage : Option String
  character : String
  pose : String
  styleTags : List String
  characterTags : List String
  prompt : String
deriving DecidableEq

/-- The JSON body POSTed to /training-data on a successful submission
(TrainingDataUpload.tsx lines 87-94). -/
structure TrainingPayload where
  character : String
  pose : String
  style_tags : List String
  character_tags : List String
  image_base64 : String
  prompt : String
deriving DecidableEq

/-- What `handleSubmit` does: either reject with the validation error and
issue no request, or issue the upload request with the given payload. -/
inductive SubmitAction where
  | reject (errorMsg : String)
  | upload (payload : TrainingPayload)
deriving DecidableEq

/-- The validation message set by `handleSubmit` when a field is missing. -/
def missingFieldsMessage : String :=
  "Please provide character name, image, and at least one style tag"

/-- Embeds `handleSubmit` (TrainingDataUpload.tsx lines 71-99): the guard
`!selectedImage || !formData.character || formData.styleTags.length === 0`
returns before the fetch; otherwise the upload request is issued. -/
def handleSubmit (f : TrainingFormState) : SubmitAction :=
  match f.selectedImage with
  | none => .reject missingFieldsMessage
  | some img =>
      if img = "" ∨ f.character = "" ∨ f.styleTags = [] then
        .reject missingFieldsMessage
      else
        .upload
          { character := f.character
            pose := f.pose
            style_tags := f.styleTags
            character_tags := f.characterTags
            image_base64 := img
            prompt := f.prompt }

/-! ## Gallery rating update (App.tsx, handleRatingChange lines 88-107) -/

/-- Embeds the local-state update of `handleRatingChange`:
`prev.map(sprite => sprite.id === id ? \x7b ...sprite, rating, feedback,
updatedAt: new Date().toISOString() \x7d : sprite)`, with the timestamp
passed explicitly as `now`. -/
def handleRatingChangeLocal (sprites : List Sprite) (id : String) (rating : Nat)
    (feedback : Option String) (now : String) : List Sprite :=
  sprites.map fun s =>
    if s.id = id then
      { s with rating := rating, feedback := feedback, updatedAt := some now }
    else s

/-! ## MCP tool table (src/components/MCPInterface.tsx, lines 17-49) -/

/-- The two parameter types occurring in the tool table. -/
inductive ParamType where
  | string
  | boolean
deriving DecidableEq

/-- One entry of the `parameters` record of a tool: name, type, required flag. -/
structure ParamSpec where
  name : String
  type : ParamType
  required : Bool
deriving DecidableEq

/-- Embeds the MCPTool records of MCPInterface.tsx. -/
structure MCPTool where
  name : String
  description : String
  parameters : List ParamSpec
deriving DecidableEq

/-- Embeds the `tools` array of MCPInterface.tsx lines 17-49, verbatim. -/
def tools : List MCPTool :=
  [ { name := "generate_sprite"
      description := "Generate a character sprite with AI-enhanced prompting"
      parameters :=
        [ ⟨"character", .string, true⟩
        , ⟨"pose", .string, false⟩
        , ⟨"style", .string, false⟩
        , ⟨"use_training_data", .boolean, false⟩ ] }
  , { name := "enhance_prompt"
      description := "Enhance a sprite generation prompt using training data"
      parameters := [ ⟨"prompt", .string, true⟩ ] }
  , { name := "analyze_sprite_quality"
      description := "Analyze sprite quality and get improvement suggestions"
      parameters := [ ⟨"sprite_id", .string, true⟩ ] }
  , { name := "get_style_recommendations"
      description := "Get style recommendations based on successful generations"
      parameters := [ ⟨"character", .string, true⟩ ] } ]

/-- The fixed per-tool parameter schema table exactly as the design document
states it, as (tool name, (parameter name, type, required) list) pairs. -/
def specSchemaTable : List (String × List (String × ParamType × Bool)) :=
  [ ("generate_sprite",
      [ ("character", ParamType.string, true)
      , ("pose", ParamType.string, false)
      , ("style", ParamType.string, false)
      , ("use_training_data", ParamType.boolean, false) ])
  , ("enhance_prompt", [ ("prompt", ParamType.string, true) ])
  , ("analyze_sprite_quality", [ ("sprite_id", ParamType.string, true) ])
  , ("get_style_recommendations", [ ("character", ParamType.string, true) ]) ]

/-- The schema view of the embedded tool table: names and parameter triples,
descriptions dropped. -/
def toolsSchema : List (String × List (String × ParamType × Bool)) :=
  tools.map fun t => (t.name, t.parameters.map fun p => (p.name, p.type, p.required))

/-! ## ToolDispatcher validation

The /mcp/execute handler lives in the Flask backend, which is not among the
sources; only its caller (MCPInterface.tsx `executeTool`) and its schema
table (`tools` above) are.  The validation step is therefore modelled from
the design document, over the schema table embedded from the frontend. -/

/-- A supplied parameter value: the frontend sends strings from text inputs
and booleans from checkboxes. -/
inductive PValue where
  | str (s : String)
  | bool (b : Bool)
deriving DecidableEq

/-- The declared type a supplied value actually has. -/
def PValue.typeOf : PValue → ParamType
  | .str _ => .string
  | .bool _ => .boolean

/-- The caller-input error taxonomy of the design document. -/
inductive DispatchError where
  | unknownTool
  | missingParameter (name : String)
  | typeMismatch (name : String)
deriving DecidableEq

/-- Modelled from the spec: the ToolDispatcher transition (§4.5) — look up
the schema of the tool by name, failing with UnknownTool when the name is not
recognized; then fail with MissingParameter(name) for a required parameter
absent from the supplied parameters; then fail with TypeMismatch(name) for
a supplied parameter whose declared type does not match. The backend
/mcp/execute handler implementing this is not among the sources. -/
def validateInvocation (toolName : String) (params : List (String × PValue)) :
    Option DispatchError :=
  match tools.find? (fun t => t.name == toolName) with
  | none => some .unknownTool
  | some t =>
      match t.parameters.find? (fun p => p.required && (params.lookup p.name).isNone) with
      | some p => some (.missingParameter p.name)
      | none =>
          match t.parameters.find?
              (fun p =>
                match params.lookup p.name with
                | some v => v.typeOf != p.type
                | none => false) with
          | some p => some (.typeMismatch p.name)
          | none => none

/-- Modelled from the spec: dispatch validates the invocation before any
component logic runs, and only on success delegates to the selected
component (abstracted here as `delegate`). -/
def dispatch (delegate : String → List (String × PValue) → String)
    (toolName : String) (params : List (String × PValue)) :
    Except DispatchError String :=
  match validateInvocation toolName params with
  | some e => .error e
  | none => .ok (delegate toolName params)

/-! ## TagMatcher and PromptEnhancer

The tag-matching engine is implemented by the Flask backend, which is not
among the sources; the definitions below are modelled from the design
document (§4.1, §4.2). -/

/-- Modelled from the spec: the GenerationRequest record (§3) — character
required, pose and style optional. -/
structure GenerationRequest where
  character : String
  pose : Option String
  style : Option String
deriving DecidableEq

/-- Modelled from the spec: the TrainingReference record (§3); the opaque
image payload is not interpreted by the core and is omitted.  `rating` 0
encodes unset, `uploaded_at` is an abstract timestamp. -/
structure TrainingReference where
  character : String
  pose : Option String
  style_tags : List String
  character_tags : List String
  prompt : String
  rating : Nat
  uploaded_at : Nat
deriving DecidableEq

/-- Lowercase a string character by character. -/
def lowerString (s : String) : String :=
  ⟨s.data.map Char.toLower⟩

/-- Split a character list into its maximal alphanumeric words; `acc` holds
the characters of the current word in reverse. -/
def wordsAux : List Char → List Char → List String
  | [], acc => if acc.isEmpty then [] else [⟨acc.reverse⟩]
  | c :: cs, acc =>
      if c.isAlphanum then wordsAux cs (c :: acc)
      else if acc.isEmpty then wordsAux cs []
      else ⟨acc.reverse⟩ :: wordsAux cs []

/-- Modelled from the spec: tokenize a string into a lowercase word set,
splitting on non-alphanumeric boundaries (§4.1). -/
def tokenize (s : String) : Finset String :=
  (wordsAux (lowerString s).data []).toFinset

/-- Modelled from the spec: Jaccard similarity of two finite tag sets; an
empty union (both sets empty) yields 0. -/
def jaccard (a b : Finset String) : ℚ :=
  if a ∪ b = ∅ then 0 else ((a ∩ b).card : ℚ) / ((a ∪ b).card : ℚ)

/-- The style tags of a reference, lowercased, as a set (§4.1). -/
def refStyleTagSet (ref : TrainingReference) : Finset String :=
  (ref.style_tags.map lowerString).toFinset

/-- Modelled from the spec: character partial score (§4.1) — 1 on a
case-insensitive match, otherwise Jaccard of the token sets (0 when either
token set is empty, since then the intersection is empty). -/
def character_score (t : GenerationRequest) (ref : TrainingReference) : ℚ :=
  if lowerString t.character = lowerString ref.character then 1
  else jaccard (tokenize t.character) (tokenize ref.character)

/-- Modelled from the spec: style partial score (§4.1) — 0 when the target
supplies no style, otherwise Jaccard between the style tokens of the target
and the lowercased style tags of the reference. -/
def style_score (t : GenerationRequest) (ref : TrainingReference) : ℚ :=
  match t.style with
  | none => 0
  | some st => jaccard (tokenize st) (refStyleTagSet ref)

/-- Modelled from the spec: pose partial score (§4.1) — 1 when both poses
are present and equal case-insensitively or their tokens overlap, 1/2 when
either side omits pose, 0 otherwise. -/
def pose_score (t : GenerationRequest) (ref : TrainingReference) : ℚ :=
  match t.pose, ref.pose with
  | some tp, some rp =>
      if lowerString tp = lowerString rp ∨ tokenize tp ∩ tokenize rp ≠ ∅ then 1 else 0
  | _, _ => 1 / 2

/-- Clamp a rational to the unit interval. -/
def clamp01 (x : ℚ) : ℚ := max 0 (min 1 x)

/-- Modelled from the spec: the combined TagMatcher score (§4.1) —
0.5·character + 0.35·style + 0.15·pose, clamped to [0,1]. -/
def matchScore (t : GenerationRequest) (ref : TrainingReference) : ℚ :=
  clamp01 (1 / 2 * character_score t ref + 7 / 20 * style_score t ref +
    3 / 20 * pose_score t ref)

/-- Modelled from the spec: the ranking order (§4.1) — higher score first,
ties broken by higher rating, then by most recent upload. -/
def rankBefore (a b : TrainingReference × ℚ) : Bool :=
  if a.2 ≠ b.2 then decide (b.2 < a.2)
  else if a.1.rating ≠ b.1.rating then decide (b.1.rating < a.1.rating)
  else decide (b.1.uploaded_at ≤ a.1.uploaded_at)

/-- Insertion step of the deterministic ranking sort. -/
def insertRanked (x : TrainingReference × ℚ) :
    List (TrainingReference × ℚ) → List (TrainingReference × ℚ)
  | [] => [x]
  | y :: ys => if rankBefore x y then x :: y :: ys else y :: insertRanked x ys

/-- Deterministic insertion sort by `rankBefore`. -/
def sortRanked (l : List (TrainingReference × ℚ)) : List (TrainingReference × ℚ) :=
  l.foldr insertRanked []

/-- Modelled from the spec: the TagMatcher result (§4.1) — score every
reference, keep those with score > 0, rank them, return the top k
(default 3); an empty result is a normal outcome. -/
def topMatches (k : Nat) (t : GenerationRequest) (refs : List TrainingReference) :
    List (TrainingReference × ℚ) :=
  (sortRanked ((refs.map fun ref => (ref, matchScore t ref)).filter
    fun m => decide (0 < m.2))).take k

/-- Modelled from the spec: the deterministic base prompt of PromptEnhancer
(§4.2): "a sprite of {character}[, in {pose} pose][, {style} style]". -/
def basePrompt (t : GenerationRequest) : String :=
  "a sprite of " ++ t.character ++
    (match t.pose with
      | some p => ", in " ++ p ++ " pose"
      | none => "") ++
    (match t.style with
      | some s => ", " ++ s ++ " style"
      | none => "")

/-- Deduplicate keeping the first occurrence of each tag, preserving order. -/
def dedupKeepFirst : List String → List String
  | [] => []
  | x :: xs => x :: (dedupKeepFirst xs).filter fun y => y != x

/-- Modelled from the spec: the training-derived clause (§4.2) — the union
of style and character tags of the matched references in match-rank then
first-seen order, deduplicated, plus excerpts of up to 2 example prompts of
the highest-scoring matches truncated to 200 characters. -/
def trainingClause (ms : List (TrainingReference × ℚ)) : String :=
  let tags := dedupKeepFirst (ms.map (fun m => m.1.style_tags ++ m.1.character_tags)).flatten
  let prompts := (ms.take 2).map fun m => (m.1.prompt.take 200)
  ". Style hints: " ++ String.intercalate ", " tags ++
    ". Example prompts: " ++ String.intercalate " | " prompts

/-- Modelled from the spec: `enhance` (§4.2) — build the base prompt, query
TagMatcher for the top 3 matches over the training set, and append the
training-derived clause only when matches exist. -/
def enhance (t : GenerationRequest) (refs : List TrainingReference) : String :=
  match topMatches 3 t refs with
  | [] => basePrompt t
  | m :: ms => basePrompt t ++ trainingClause (m :: ms)

/-! ## Concrete fixtures used to evaluate the definitions -/

/-- A rated gallery sprite with id "a". -/
def spriteA : Sprite :=
  { id := "a", character := "Mage", pose := "idle", style := "anime"
    imageBase64 := "AAA", rating := 3, feedback := none
    createdAt := "2025-01-01T00:00:00Z", updatedAt := none }

/-- A second gallery sprite with id "b". -/
def spriteB : Sprite :=
  { id := "b", character := "Knight", pose := "attacking", style := "pixel"
    imageBase64 := "BBB", rating := 5, feedback := some "great"
    createdAt := "2025-01-02T00:00:00Z", updatedAt := none }

/-- A filled-in training-upload form with one style tag. -/
def form0 : TrainingFormState :=
  { selectedImage := some "IMGDATA", character := "Mage", pose := "idle"
    styleTags := ["anime"], characterTags := [], prompt := "a mage sprite" }

/-- The payload `handleSubmit` sends for `form0`. -/
def payload0 : TrainingPayload :=
  { character := "Mage", pose := "idle", style_tags := ["anime"]
    character_tags := [], image_base64 := "IMGDATA", prompt := "a mage sprite" }

/-- A generation request naming the Mage character. -/
def request0 : GenerationRequest :=
  { character := "Mage", pose := some "idle", style := some "anime" }

/-- A training reference that matches `request0` perfectly. -/
def reference0 : TrainingReference :=
  { character := "Mage", pose := some "idle", style_tags := ["anime"]
    character_tags := [], prompt := "a mage sprite, anime style"
    rating := 5, uploaded_at := 10 }

/-! ## Helper lemmas -/

/-- Jaccard similarity of a non-empty set with itself is 1. -/
theorem jaccard_self_of_ne_empty (a : Finset String) (h : a ≠ ∅) : jaccard a a = 1 := by
  have hcard : (a.card : ℚ) ≠ 0 := by
    exact_mod_cast Finset.card_ne_zero.mpr (Finset.nonempty_iff_ne_empty.mpr h)
  simp only [jaccard, Finset.union_self, Finset.inter_self, if_neg h]
  exact div_self hcard

/-- The clamp always lands in the unit interval. -/
theorem clamp01_mem (x : ℚ) : 0 ≤ clamp01 x ∧ clamp01 x ≤ 1 :=
  ⟨le_max_left 0 _, max_le (by norm_num) (min_le_left 1 x)⟩

/-! ## Claim theorems -/

/-- C1: when the training store holds no references (so TagMatcher yields no
matches), `enhance` returns exactly the deterministic base prompt; more
generally, whenever TagMatcher yields no matches no training-derived clause
is appended. -/
theorem enhance_no_matches_returns_base :
    (∀ t : GenerationRequest, topMatches 3 t [] = []) ∧
    (∀ (t : GenerationRequest) (refs : List TrainingReference),
      topMatches 3 t refs = [] → enhance t refs = basePrompt t) := by
  constructor
  · intro t
    rfl
  · intro t refs h
    simp [enhance, h]

/-- C1 witness: on the empty training set, `enhance` of `request0` is the
base prompt. -/
theorem enhance_no_matches_returns_base_witness :
    enhance request0 [] = basePrompt request0 :=
  enhance_no_matches_returns_base.2 request0 [] rfl

/-- C2 counterexample: at the concrete request (character "knight", no pose,
no style) the prompt built by `generateSprite` is not the template the claim
states ("a sprite of knight"). -/
theorem generate_prompt_template_counterexample :
    generateSpritePrompt { character := "knight", pose := "", style := "" } ≠
      claimedBasePrompt { character := "knight", pose := "", style := "" } := by
  decide

/-- C2 (amended): the prompt built by `generateSprite` equals
"Generate a sprite of {character}", with " in {pose} pose" appended iff the
pose is non-empty and " with {style} style" appended iff the style is
non-empty, always followed by the fixed quality suffix, and nothing else. -/
theorem generate_prompt_amended (r : GenerateRequest) :
    (r.pose = "" → r.style = "" →
      generateSpritePrompt r = "Generate a sprite of " ++ r.character ++ qualitySuffix) ∧
    (r.pose ≠ "" → r.style = "" →
      generateSpritePrompt r =
        "Generate a sprite of " ++ r.character ++ (" in " ++ r.pose ++ " pose") ++
          qualitySuffix) ∧
    (r.pose = "" → r.style ≠ "" →
      generateSpritePrompt r =
        "Generate a sprite of " ++ r.character ++ (" with " ++ r.style ++ " style") ++
          qualitySuffix) ∧
    (r.pose ≠ "" → r.style ≠ "" →
      generateSpritePrompt r =
        "Generate a sprite of " ++ r.character ++ (" in " ++ r.pose ++ " pose") ++
          (" with " ++ r.style ++ " style") ++ qualitySuffix) := by
  refine ⟨fun hp hs => ?_, fun hp hs => ?_, fun hp hs => ?_, fun hp hs => ?_⟩ <;>
    simp [generateSpritePrompt, qualitySuffix, hp, hs, String.append_assoc]

/-- C2 witness: the amended template evaluated at a request carrying a pose
and a style. -/
theorem generate_prompt_amended_witness :
    generateSpritePrompt { character := "knight", pose := "idle", style := "anime" } =
      "Generate a sprite of " ++ "knight" ++ (" in " ++ "idle" ++ " pose") ++
        (" with " ++ "anime" ++ " style") ++ qualitySuffix :=
  (generate_prompt_amended { character := "knight", pose := "idle", style := "anime" }
    ).2.2.2 (by decide) (by decide)

/-- C3: `enhance` is deterministic — two runs on the same request and the
same training set produce identical output strings. -/
theorem enhance_deterministic
    (t₁ t₂ : GenerationRequest) (refs₁ refs₂ : List TrainingReference)
    (ht : t₁ = t₂) (hrefs : refs₁ = refs₂) :
    enhance t₁ refs₁ = enhance t₂ refs₂ := by
  subst ht
  subst hrefs
  rfl

/-- C3 witness: two runs of `enhance` on `request0` and the one-reference
training set agree. -/
theorem enhance_deterministic_witness :
    enhance request0 [reference0] = enhance request0 [reference0] :=
  enhance_deterministic request0 request0 [reference0] [reference0] rfl rfl

/-- C4: the per-tool parameter schema of the embedded `tools` array is
exactly the fixed four-tool table the design document states, with no other
tools or parameters. -/
theorem tools_schema_is_fixed_table :
    toolsSchema = specSchemaTable ∧ tools.length = 4 :=
  ⟨rfl, rfl⟩

/-- C5: dispatch fails with UnknownTool on an unrecognized tool name and
with MissingParameter on an absent required parameter, independently of the
delegated component (so before any component logic runs); in particular the
enhance_prompt invocation with empty parameters fails with
MissingParameter("prompt"). -/
theorem dispatch_validates_before_delegation :
    (∀ (d : String → List (String × PValue) → String) (name : String)
        (params : List (String × PValue)),
      tools.find? (fun u => u.name == name) = none →
      dispatch d name params = .error .unknownTool) ∧
    (∀ (d : String → List (String × PValue) → String) (name : String)
        (params : List (String × PValue)) (t : MCPTool) (p : ParamSpec),
      tools.find? (fun u => u.name == name) = some t →
      p ∈ t.parameters → p.required = true → params.lookup p.name = none →
      ∃ q : ParamSpec, q ∈ t.parameters ∧ q.required = true ∧
        params.lookup q.name = none ∧
        dispatch d name params = .error (.missingParameter q.name)) ∧
    (∀ d : String → List (String × PValue) → String,
      dispatch d "enhance_prompt" [] = .error (.missingParameter "prompt")) := by
  refine ⟨?_, ?_, ?_⟩
  · intro d name params h
    simp [dispatch, validateInvocation, h]
  · intro d name params t p ht hp hreq habs
    cases h2 : t.parameters.find? (fun q => q.required && (params.lookup q.name).isNone) with
    | none =>
        exfalso
        have := List.find?_eq_none.mp h2 p hp
        simp [hreq, habs] at this
    | some q =>
        have hqpred := List.find?_some h2
        have hqmem := List.mem_of_find?_eq_some h2
        simp only [Bool.and_eq_true, Option.isNone_iff_eq_none] at hqpred
        exact ⟨q, hqmem, hqpred.1, hqpred.2,
          by simp [dispatch, validateInvocation, ht, h2]⟩
  · intro d
    rfl

/-- C5 witness: an unrecognized tool name is rejected with UnknownTool for a
concrete delegate. -/
theorem dispatch_validates_before_delegation_witness :
    dispatch (fun _ _ => "") "bogus_tool" [] = .error .unknownTool :=
  dispatch_validates_before_delegation.1 (fun _ _ => "") "bogus_tool" [] rfl

/-- C6: the combined TagMatcher score is the clamped weighted sum
0.5·character + 0.35·style + 0.15·pose, hence always lies in [0,1]; a
reference with an identical character, an equal pose and fully-overlapping
style tags scores exactly 1. -/
theorem matchScore_formula_bounds_perfect :
    (∀ (t : GenerationRequest) (ref : TrainingReference),
      matchScore t ref =
        clamp01 (1 / 2 * character_score t ref + 7 / 20 * style_score t ref +
          3 / 20 * pose_score t ref)) ∧
    (∀ (t : GenerationRequest) (ref : TrainingReference),
      0 ≤ matchScore t ref ∧ matchScore t ref ≤ 1) ∧
    (∀ (t : GenerationRequest) (ref : TrainingReference) (tp rp st : String),
      lowerString t.character = lowerString ref.character →
      t.pose = some tp → ref.pose = some rp → lowerString tp = lowerString rp →
      t.style = some st → tokenize st = refStyleTagSet ref → tokenize st ≠ ∅ →
      matchScore t ref = 1) := by
  refine ⟨fun t ref => rfl, fun t ref => clamp01_mem _, ?_⟩
  intro t ref tp rp st hchar htp hrp hpose hst hset hne
  have hc : character_score t ref = 1 := by
    simp [character_score, hchar]
  have hp : pose_score t ref = 1 := by
    simp [pose_score, htp, hrp, hpose]
  have hs : style_score t ref = 1 := by
    have hred : style_score t ref = jaccard (tokenize st) (refStyleTagSet ref) := by
      simp [style_score, hst]
    rw [hred, hset]
    exact jaccard_self_of_ne_empty _ (hset ▸ hne)
  rw [matchScore, hc, hp, hs]
  norm_num [clamp01]

/-- C6 witness: the perfectly matching reference `reference0` scores 1 for
`request0`. -/
theorem matchScore_formula_bounds_perfect_witness :
    matchScore request0 reference0 = 1 :=
  matchScore_formula_bounds_perfect.2.2 request0 reference0 "idle" "idle" "anime"
    rfl rfl rfl rfl rfl (by decide) (by decide)

/-- C7: a training-data submission with no style tags (or an empty
character) is rejected before any upload request is issued, and every
payload that is uploaded carries a non-empty character and non-empty
style tags. -/
theorem handleSubmit_gate :
    (∀ f : TrainingFormState, f.styleTags = [] →
      handleSubmit f = .reject missingFieldsMessage) ∧
    (∀ (f : TrainingFormState) (p : TrainingPayload),
      handleSubmit f = .upload p →
      p.character ≠ "" ∧ p.style_tags ≠ [] ∧
        p.style_tags = f.styleTags ∧ p.character = f.character) := by
  constructor
  · intro f h
    cases himg : f.selectedImage with
    | none => simp [handleSubmit, himg]
    | some img => simp [handleSubmit, himg, h]
  · intro f p h
    cases himg : f.selectedImage with
    | none => simp [handleSubmit, himg] at h
    | some img =>
        simp only [handleSubmit, himg] at h
        by_cases hcond : img = "" ∨ f.character = "" ∨ f.styleTags = []
        · rw [if_pos hcond] at h
          exact absurd h (by simp)
        · rw [if_neg hcond] at h
          push_neg at hcond
          have hpay := (SubmitAction.upload.injEq _ _).mp h
          subst hpay
          exact ⟨hcond.2.1, hcond.2.2, rfl, rfl⟩

/-- C7 witness: the filled-in form `form0` uploads `payload0`, whose style
tags and character are non-empty and equal the form fields. -/
theorem handleSubmit_gate_witness :
    payload0.character ≠ "" ∧ payload0.style_tags ≠ [] ∧
      payload0.style_tags = form0.styleTags ∧ payload0.character = form0.character :=
  handleSubmit_gate.2 form0 payload0 rfl

/-- C8: when the fetch is aborted by its timeout signal (a rejection named
TimeoutError or AbortError), `fetchWithErrorHandling` surfaces exactly the
timeout error message and returns no response alongside it. -/
theorem fetch_timeout_surfaces_error (errName errMsg : String)
    (h : errName = "TimeoutError" ∨ errName = "AbortError") :
    fetchWithErrorHandling (.rejected errName errMsg) = .error timeoutMessage ∧
    ∀ r : FetchResponse, fetchWithErrorHandling (.rejected errName errMsg) ≠ .ok r := by
  have htr : translateError errName errMsg = timeoutMessage := by
    rcases h with h | h <;> simp [translateError, h]
  refine ⟨by simp [fetchWithErrorHandling, htr], ?_⟩
  intro r hr
  simp [fetchWithErrorHandling] at hr

/-- C8 witness: a TimeoutError rejection is surfaced as the timeout
message. -/
theorem fetch_timeout_surfaces_error_witness :
    fetchWithErrorHandling (.rejected "TimeoutError" "signal timed out") =
      .error timeoutMessage :=
  (fetch_timeout_surfaces_error "TimeoutError" "signal timed out" (Or.inl rfl)).1

/-- C9: a single invocation of `fetchWithErrorHandling` issues exactly the
one request to its url — at most one request regardless of the outcome
(success, HTTP error, timeout or network failure); no retry happens inside. -/
theorem fetch_at_most_one_request (url : String) (outcome : FetchOutcome) :
    (fetchWithErrorHandlingRun url outcome).2 = [url] ∧
    (fetchWithErrorHandlingRun url outcome).2.length ≤ 1 :=
  ⟨rfl, by simp [fetchWithErrorHandlingRun]⟩

/-- C10: the local rating update maps each position of the sprite list to
itself when the id differs, and to the same sprite with only rating,
feedback and updatedAt replaced when the id matches; length (and hence
order) is preserved. -/
theorem handleRatingChange_frame
    (sprites : List Sprite) (id : String) (rating : Nat)
    (feedback : Option String) (now : String) :
    (handleRatingChangeLocal sprites id rating feedback now).length = sprites.length ∧
    ∀ (i : Nat) (hi : i < sprites.length),
      ((sprites.get ⟨i, hi⟩).id ≠ id →
        (handleRatingChangeLocal sprites id rating feedback now)[i]? =
          some (sprites.get ⟨i, hi⟩)) ∧
      ((sprites.get ⟨i, hi⟩).id = id →
        (handleRatingChangeLocal sprites id rating feedback now)[i]? =
          some { sprites.get ⟨i, hi⟩ with
                  rating := rating, feedback := feedback, updatedAt := some now }) := by
  refine ⟨by simp [handleRatingChangeLocal], fun i hi => ?_⟩
  have hmap : (handleRatingChangeLocal sprites id rating feedback now)[i]? =
      (sprites[i]?).map fun s =>
        if s.id = id then
          { s with rating := rating, feedback := feedback, updatedAt := some now }
        else s := by
    simp [handleRatingChangeLocal]
  have hgi : sprites[i]? = some (sprites.get ⟨i, hi⟩) := by
    rw [List.getElem?_eq_getElem hi]
    rfl
  constructor
  · intro hne
    rw [hmap, hgi, Option.map_some', if_neg hne]
  · intro heq
    rw [hmap, hgi, Option.map_some', if_pos heq]

/-- C10 witness: updating the rating of sprite "a" leaves the sprite at
position 1 (id "b") untouched. -/
theorem handleRatingChange_frame_witness :
    (handleRatingChangeLocal [spriteA, spriteB] "a" 4 (some "better") "2025-02-01")[1]? =
      some spriteB :=
  ((handleRatingChange_frame [spriteA, spriteB] "a" 4 (some "better") "2025-02-01").2
    1 (by decide)).1 (by decide)

end SpriteGen
